import Mathlib

/-!
Shallow embedding of the `.novateam` Flask/SQLite backend (`src/python.py`).

The relational store (four SQLite tables) is modelled as four Lean lists,
each row a structure mirroring the table's columns.  SQLite keeps rows in
insertion (rowid) order for these tables, so inserting appends to the end
of the list and `SELECT *` returns the list as-is.  Every HTTP handler
becomes a pure function from the request's fields and the current store to
a response together with the next store; a handler that raises
`IntegrityError` (a primary-key violation) returns the original store,
matching the rollback that happens when the request's connection is closed
without a commit.
-/

namespace NovaTeam

/-- A row of the `users` table: `password TEXT PRIMARY KEY, role TEXT`. -/
structure User where
  password : String
  role : String
  deriving Repr, DecidableEq

/-- A row of the `competitions` table: `name TEXT PRIMARY KEY`, plus
`date`, `location`, `description`, `status`. -/
structure Competition where
  name : String
  date : String
  location : String
  description : String
  status : String
  deriving Repr, DecidableEq

/-- A row of the `competitors` table: `id TEXT PRIMARY KEY`, plus
`name`, `nationality`, `status`. -/
structure Competitor where
  id : String
  name : String
  nationality : String
  status : String
  deriving Repr, DecidableEq

/-- A row of the `competition_competitors` association table; composite
primary key `(competition_name, competitor_id)`. -/
structure AssocRow where
  competition_name : String
  competitor_id : String
  deriving Repr, DecidableEq

/-- The whole relational store: the four tables, rows in rowid order. -/
structure Store where
  users : List User
  competitions : List Competition
  competitors : List Competitor
  competition_competitors : List AssocRow
  deriving Repr, DecidableEq

/-- The store right after `init_db` drops and recreates the tables. -/
def emptyStore : Store := ⟨[], [], [], []⟩

/-- A JSON response `{success, message}` with its HTTP status code
(`jsonify` defaults to 200). -/
structure ApiResp where
  success : Bool
  message : String
  status : Nat
  deriving Repr, DecidableEq

/-- `jsonify(success=True, message=...)` with the default 200 status. -/
def ok (msg : String) : ApiResp := ⟨true, msg, 200⟩

/-- `jsonify(success=False, message=...)` with the default 200 status. -/
def fail (msg : String) : ApiResp := ⟨false, msg, 200⟩

/-! ### User endpoints -/

/-- `POST /api/signup`: `INSERT INTO users (password, role) VALUES (?, 'general')`;
an `IntegrityError` (duplicate password) is reported as `success:false`. -/
def signup (s : Store) (password : String) : ApiResp × Store :=
  if s.users.any (fun u => u.password == password) then
    (fail "User already exists.", s)
  else
    (ok "User created successfully. You can now log in.",
     { s with users := s.users ++ [⟨password, "general"⟩] })

/-- `GET /api/users`: `SELECT password, role FROM users`. -/
def getUsers (s : Store) : List (String × String) :=
  s.users.map (fun u => (u.password, u.role))

/-- `POST /api/users/add`: insert with the given role (default handled by
the caller); duplicate password reported as `success:false`. -/
def addUser (s : Store) (password role : String) : ApiResp × Store :=
  if s.users.any (fun u => u.password == password) then
    (fail "User already exists.", s)
  else
    (ok "User added successfully.", { s with users := s.users ++ [⟨password, role⟩] })

/-- `POST /api/users/remove`: `DELETE FROM users WHERE password = ?`,
always `success:true`. -/
def removeUser (s : Store) (password : String) : ApiResp × Store :=
  (ok "User removed successfully.",
   { s with users := s.users.filter (fun u => u.password != password) })

/-! ### Competition endpoints -/

/-- The JSON body of `POST /api/competitions/add`.  The handler reads only
`name`, `date`, `location` and `description`; a `status` field may be
supplied but is never read, so it is kept here as an ignored extra. -/
structure AddCompetitionReq where
  name : String
  date : String
  location : String
  description : String
  status : Option String
  deriving Repr, DecidableEq

/-- `POST /api/competitions/add`: insert with the literal status
`"Upcoming"`; duplicate name reported as `success:false`. -/
def addCompetition (s : Store) (req : AddCompetitionReq) : ApiResp × Store :=
  if s.competitions.any (fun c => c.name == req.name) then
    (fail "Competition with this name already exists.", s)
  else
    (ok "Competition added successfully.",
     { s with competitions :=
        s.competitions ++ [⟨req.name, req.date, req.location, req.description, "Upcoming"⟩] })

/-- `POST /api/competitions/remove`: `DELETE FROM competitions WHERE name = ?`,
always `success:true`; the association table is not touched. -/
def removeCompetition (s : Store) (name : String) : ApiResp × Store :=
  (ok "Competition removed successfully.",
   { s with competitions := s.competitions.filter (fun c => c.name != name) })

/-- `GET /api/competitions/<name>/competitors`: the join
`SELECT c.name, c.nationality FROM competitors c JOIN competition_competitors cc
ON c.id = cc.competitor_id WHERE cc.competition_name = ?`. -/
def getCompetitionCompetitors (s : Store) (competition_name : String) :
    List (String × String) :=
  (s.competition_competitors.filter (fun cc => cc.competition_name == competition_name)).flatMap
    (fun cc => (s.competitors.filter (fun c => c.id == cc.competitor_id)).map
      (fun c => (c.name, c.nationality)))

/-- The full response of `GET /api/competitions/<name>/competitors`: the
handler has no error branch, so the status code is always 200. -/
def getCompetitionCompetitorsHandler (s : Store) (competition_name : String) :
    Nat × List (String × String) :=
  (200, getCompetitionCompetitors s competition_name)

/-- Python truthiness test `not competition_name` on an optional request
field: true when the field is absent or the empty string. -/
def isBlank : Option String → Bool
  | none => true
  | some str => str == ""

/-- `POST /api/competitions/add_competitor`: rejects blank fields, then
inserts the association row; a duplicate `(competition_name, competitor_id)`
pair raises `IntegrityError`, reported as `success:false`.  Existence of
the referenced competition/competitor rows is never checked. -/
def addCompetitorToCompetition (s : Store) (competition_name competitor_id : Option String) :
    ApiResp × Store :=
  if isBlank competition_name || isBlank competitor_id then
    (fail "Competition name and competitor ID are required.", s)
  else
    let cn := competition_name.getD ""
    let cid := competitor_id.getD ""
    if s.competition_competitors.any
        (fun cc => cc.competition_name == cn && cc.competitor_id == cid) then
      (fail "Competitor is already assigned to this competition.", s)
    else
      (ok "Competitor assigned successfully.",
       { s with competition_competitors := s.competition_competitors ++ [⟨cn, cid⟩] })

/-! ### Competitor endpoints -/

/-- The response of `GET /api/competitors/<id>/profile`: either the 404
`{success:false, message:"Competitor not found."}` object, or the
competitor's row together with the `(name, date, location)` triples of the
competitions joined through the association table. -/
inductive ProfileResp where
  | notFound : ProfileResp
  | found : Competitor → List (String × String × String) → ProfileResp
  deriving Repr, DecidableEq

/-- The HTTP status code attached to a profile response. -/
def profileStatus : ProfileResp → Nat
  | .notFound => 404
  | .found _ _ => 200

/-- `GET /api/competitors/<id>/profile`: `SELECT * FROM competitors WHERE id = ?`
(`fetchone`, i.e. the first matching row), then the join
`SELECT c.name, c.date, c.location FROM competitions c JOIN competition_competitors cc
ON c.name = cc.competition_name WHERE cc.competitor_id = ?`. -/
def getCompetitorProfile (s : Store) (competitor_id : String) : ProfileResp :=
  match s.competitors.find? (fun c => c.id == competitor_id) with
  | none => .notFound
  | some c =>
    .found c
      ((s.competition_competitors.filter (fun cc => cc.competitor_id == competitor_id)).flatMap
        (fun cc => (s.competitions.filter (fun comp => comp.name == cc.competition_name)).map
          (fun comp => (comp.name, comp.date, comp.location))))

/-- `POST /api/competitors/add`: insert the row; duplicate id reported as
`success:false`. -/
def addCompetitor (s : Store) (c : Competitor) : ApiResp × Store :=
  if s.competitors.any (fun x => x.id == c.id) then
    (fail "Competitor with this ID already exists.", s)
  else
    (ok "Competitor added successfully.", { s with competitors := s.competitors ++ [c] })

/-- `POST /api/competitors/remove`: `DELETE FROM competitors WHERE id = ?`,
always `success:true`; the association table is not touched. -/
def removeCompetitor (s : Store) (comp_id : String) : ApiResp × Store :=
  (ok "Competitor removed successfully.",
   { s with competitors := s.competitors.filter (fun c => c.id != comp_id) })

/-- The first `UPDATE` of `edit_competitor` violates the `competitors.id`
primary key exactly when a row carries `original_id`, the new id differs,
and some row already carries `new_id`. -/
def competitorUpdateConflict (s : Store) (new_id original_id : String) : Bool :=
  new_id != original_id &&
    s.competitors.any (fun c => c.id == original_id) &&
    s.competitors.any (fun c => c.id == new_id)

/-- The second `UPDATE` of `edit_competitor` violates the composite primary
key of `competition_competitors` exactly when some row carries
`original_id`, the new id differs, and the same competition already has a
row carrying `new_id`. -/
def assocUpdateConflict (s : Store) (new_id original_id : String) : Bool :=
  new_id != original_id &&
    s.competition_competitors.any (fun cc =>
      cc.competitor_id == original_id &&
        s.competition_competitors.any (fun cc2 =>
          cc2.competition_name == cc.competition_name && cc2.competitor_id == new_id))

/-- `POST /api/competitors/edit`: `UPDATE competitors SET name=?, id=?,
nationality=?, status=? WHERE id = ?`, then `UPDATE competition_competitors
SET competitor_id = ? WHERE competitor_id = ?`.  Any exception (the
`IntegrityError` of a key violation) is caught and forwarded as
`success:false`; the uncommitted transaction is rolled back when the
request's connection closes, so the store is unchanged on that path. -/
def editCompetitor (s : Store)
    (new_name new_id new_nationality new_status original_id : String) : ApiResp × Store :=
  if competitorUpdateConflict s new_id original_id then
    (fail "UNIQUE constraint failed: competitors.id", s)
  else if assocUpdateConflict s new_id original_id then
    (fail "UNIQUE constraint failed: competition_competitors.competition_name, competition_competitors.competitor_id", s)
  else
    (ok "Competitor updated successfully.",
     { s with
        competitors := s.competitors.map (fun c =>
          if c.id = original_id then ⟨new_id, new_name, new_nationality, new_status⟩ else c),
        competition_competitors := s.competition_competitors.map (fun cc =>
          if cc.competitor_id = original_id then ⟨cc.competition_name, new_id⟩ else cc) })

/-! ### Seed loader

`init_db` recreates the four tables empty, then either loads the three
JSON documents (only when all three files exist) or inserts the fixed
default dataset.  Every seed insert uses `INSERT OR IGNORE`: a row whose
key is already present is skipped. -/

/-- `INSERT OR IGNORE INTO users`. -/
def insertUserIgnore (rows : List User) (u : User) : List User :=
  if rows.any (fun x => x.password == u.password) then rows else rows ++ [u]

/-- `INSERT OR IGNORE INTO competitions`. -/
def insertCompetitionIgnore (rows : List Competition) (c : Competition) : List Competition :=
  if rows.any (fun x => x.name == c.name) then rows else rows ++ [c]

/-- `INSERT OR IGNORE INTO competitors`. -/
def insertCompetitorIgnore (rows : List Competitor) (c : Competitor) : List Competitor :=
  if rows.any (fun x => x.id == c.id) then rows else rows ++ [c]

/-- `INSERT OR IGNORE INTO competition_competitors`. -/
def insertAssocIgnore (rows : List AssocRow) (r : AssocRow) : List AssocRow :=
  if rows.any (fun x => x.competition_name == r.competition_name &&
      x.competitor_id == r.competitor_id) then rows
  else rows ++ [r]

/-- One record of `competitions.json`: the loader reads `details['name']`,
`date`, `location`, `description`, `status` and the optional
`competitor_ids` list (the enclosing dict key is never used). -/
structure CompetitionEntry where
  name : String
  date : String
  location : String
  description : String
  status : String
  competitor_ids : Option (List String)
  deriving Repr, DecidableEq

/-- The three optional seed documents, `none` when the file is absent:
`users.json` (password ↦ role, in iteration order), `competitions.json`
and `competitors.json`. -/
structure SeedFiles where
  users : Option (List (String × String))
  competitions : Option (List CompetitionEntry)
  competitors : Option (List Competitor)
  deriving Repr, DecidableEq

/-- The `users.json` loading loop. -/
def loadUsers (s : Store) (l : List (String × String)) : Store :=
  l.foldl (fun st pr => { st with users := insertUserIgnore st.users ⟨pr.1, pr.2⟩ }) s

/-- One iteration of the `competitions.json` loop: insert the competition,
then one association row per entry of `competitor_ids` when present. -/
def loadCompetitionEntry (s : Store) (e : CompetitionEntry) : Store :=
  let s1 := { s with competitions :=
    insertCompetitionIgnore s.competitions ⟨e.name, e.date, e.location, e.description, e.status⟩ }
  match e.competitor_ids with
  | none => s1
  | some ids => ids.foldl (fun st cid =>
      { st with competition_competitors :=
        insertAssocIgnore st.competition_competitors ⟨e.name, cid⟩ }) s1

/-- The `competitions.json` loading loop. -/
def loadCompetitions (s : Store) (l : List CompetitionEntry) : Store :=
  l.foldl loadCompetitionEntry s

/-- The `competitors.json` loading loop. -/
def loadCompetitors (s : Store) (l : List Competitor) : Store :=
  l.foldl (fun st c => { st with competitors := insertCompetitorIgnore st.competitors c }) s

/-- `load_initial_data`: checks that all three files exist before loading
anything; if any is absent it returns `False` having inserted nothing,
otherwise it loads users, then competitions (with their association rows),
then competitors. -/
def loadInitialData (fs : SeedFiles) : Option Store :=
  match fs.users, fs.competitions, fs.competitors with
  | some us, some cs, some crs =>
    some (loadCompetitors (loadCompetitions (loadUsers emptyStore us) cs) crs)
  | _, _, _ => none

/-- `load_default_data`: the fixed fallback dataset, inserted with
`INSERT OR IGNORE` into the freshly created (empty) tables. -/
def loadDefaultData (s : Store) : Store :=
  let s1 := { s with users := insertUserIgnore s.users ⟨"admin", "admin"⟩ }
  let s2 := [
    (⟨"Winter Grand Prix", "March 1, 2025", "London, UK",
      "The inaugural Winter Grand Prix in the heart of London.", "Completed"⟩ : Competition),
    ⟨"Spring Cup Championship", "May 15, 2025", "Paris, France",
      "An exciting championship for upcoming talents.", "Upcoming"⟩,
    ⟨"Summer Open", "July 20, 2025", "Tokyo, Japan",
      "The biggest event of the year.", "Upcoming"⟩].foldl
    (fun st c => { st with competitions := insertCompetitionIgnore st.competitions c }) s1
  let s3 := [
    (⟨"COMP-001", "Alex Smith", "American", "Active"⟩ : Competitor),
    ⟨"COMP-002", "Maria Garcia", "Spanish", "Active"⟩,
    ⟨"COMP-003", "Kenji Tanaka", "Japanese", "Active"⟩].foldl
    (fun st c => { st with competitors := insertCompetitorIgnore st.competitors c }) s2
  [(⟨"Winter Grand Prix", "COMP-001"⟩ : AssocRow),
    ⟨"Winter Grand Prix", "COMP-002"⟩,
    ⟨"Spring Cup Championship", "COMP-001"⟩,
    ⟨"Summer Open", "COMP-003"⟩].foldl
    (fun st r =>
      { st with competition_competitors := insertAssocIgnore st.competition_competitors r }) s3

/-- `init_db`: recreate the tables empty, then seed from the files when all
three exist, otherwise fall back to the default dataset. -/
def initDb (fs : SeedFiles) : Store :=
  match loadInitialData fs with
  | some s => s
  | none => loadDefaultData emptyStore

/-! ### Helper lemmas -/

/-- The duplicate test of a composite-key insert into
`competition_competitors` is exactly membership of the row. -/
theorem assoc_any_iff_mem (rows : List AssocRow) (n i : String) :
    (rows.any (fun cc => cc.competition_name == n && cc.competitor_id == i)) = true ↔
      (⟨n, i⟩ : AssocRow) ∈ rows := by
  simp only [List.any_eq_true, Bool.and_eq_true, beq_iff_eq]
  constructor
  · rintro ⟨⟨a, b⟩, hmem, h1, h2⟩
    subst h1; subst h2; exact hmem
  · intro hmem; exact ⟨⟨n, i⟩, hmem, rfl, rfl⟩

/-- A `Bool.any` over a field-equality test is false exactly when no row
carries the key. -/
theorem user_any_eq_false (l : List User) (p : String) :
    (l.any (fun u => u.password == p)) = false ↔ ∀ u ∈ l, u.password ≠ p := by
  simp [List.any_eq_false]

/-- Key-absence test for the `competitions` table. -/
theorem competition_any_eq_false (l : List Competition) (n : String) :
    (l.any (fun c => c.name == n)) = false ↔ ∀ c ∈ l, c.name ≠ n := by
  simp [List.any_eq_false]

/-- Key-absence test for the `competitors` table. -/
theorem competitor_any_eq_false (l : List Competitor) (i : String) :
    (l.any (fun c => c.id == i)) = false ↔ ∀ c ∈ l, c.id ≠ i := by
  simp [List.any_eq_false]

/-! ### Claim theorems -/

/-- C2: every insert endpoint (`/api/signup`, `/api/users/add`,
`/api/competitions/add`, `/api/competitors/add`), given a record whose
primary key (password, competition name, competitor id) already exists,
returns `success:false` with a descriptive message and HTTP status 200,
and leaves the whole store unchanged. -/
theorem insert_duplicate_pk_rejected (s : Store) (p role : String)
    (req : AddCompetitionReq) (c : Competitor) :
    ((∃ u ∈ s.users, u.password = p) →
      signup s p = (fail "User already exists.", s) ∧
      addUser s p role = (fail "User already exists.", s)) ∧
    ((∃ comp ∈ s.competitions, comp.name = req.name) →
      addCompetition s req = (fail "Competition with this name already exists.", s)) ∧
    ((∃ x ∈ s.competitors, x.id = c.id) →
      addCompetitor s c = (fail "Competitor with this ID already exists.", s)) := by
  refine ⟨fun h => ?_, fun h => ?_, fun h => ?_⟩
  · have hb : (s.users.any (fun u => u.password == p)) = true := by
      simp only [List.any_eq_true, beq_iff_eq]; exact h
    exact ⟨by simp [signup, hb], by simp [addUser, hb]⟩
  · have hb : (s.competitions.any (fun x => x.name == req.name)) = true := by
      simp only [List.any_eq_true, beq_iff_eq]; exact h
    simp [addCompetition, hb]
  · have hb : (s.competitors.any (fun x => x.id == c.id)) = true := by
      simp only [List.any_eq_true, beq_iff_eq]; exact h
    simp [addCompetitor, hb]

/-- Witness for C2 on a store holding user "p", competition "N" and
competitor "I". -/
theorem insert_duplicate_pk_rejected_witness :
    signup ⟨[⟨"p", "x"⟩], [⟨"N", "", "", "", ""⟩], [⟨"I", "", "", ""⟩], []⟩ "p" =
      (fail "User already exists.", ⟨[⟨"p", "x"⟩], [⟨"N", "", "", "", ""⟩], [⟨"I", "", "", ""⟩], []⟩) ∧
    addUser ⟨[⟨"p", "x"⟩], [⟨"N", "", "", "", ""⟩], [⟨"I", "", "", ""⟩], []⟩ "p" "general" =
      (fail "User already exists.", ⟨[⟨"p", "x"⟩], [⟨"N", "", "", "", ""⟩], [⟨"I", "", "", ""⟩], []⟩) ∧
    addCompetition ⟨[⟨"p", "x"⟩], [⟨"N", "", "", "", ""⟩], [⟨"I", "", "", ""⟩], []⟩ ⟨"N", "d", "l", "de", none⟩ =
      (fail "Competition with this name already exists.", ⟨[⟨"p", "x"⟩], [⟨"N", "", "", "", ""⟩], [⟨"I", "", "", ""⟩], []⟩) ∧
    addCompetitor ⟨[⟨"p", "x"⟩], [⟨"N", "", "", "", ""⟩], [⟨"I", "", "", ""⟩], []⟩ ⟨"I", "n", "na", "st"⟩ =
      (fail "Competitor with this ID already exists.", ⟨[⟨"p", "x"⟩], [⟨"N", "", "", "", ""⟩], [⟨"I", "", "", ""⟩], []⟩) := by
  have h := insert_duplicate_pk_rejected
    ⟨[⟨"p", "x"⟩], [⟨"N", "", "", "", ""⟩], [⟨"I", "", "", ""⟩], []⟩
    "p" "general" ⟨"N", "d", "l", "de", none⟩ ⟨"I", "n", "na", "st"⟩
  exact ⟨(h.1 (by decide)).1, (h.1 (by decide)).2, h.2.1 (by decide), h.2.2 (by decide)⟩

/-- C4: when the competition name is new, `POST /api/competitions/add`
inserts the row with status forced to the literal `"Upcoming"`, taking
name, date, location and description from the request; a supplied `status`
value is ignored (two requests differing only in it behave identically). -/
theorem add_competition_status_forced (s : Store) (name date loc desc : String)
    (st1 st2 : Option String) (hnew : ∀ comp ∈ s.competitions, comp.name ≠ name) :
    addCompetition s ⟨name, date, loc, desc, st1⟩ =
      (ok "Competition added successfully.",
       { s with competitions := s.competitions ++ [⟨name, date, loc, desc, "Upcoming"⟩] }) ∧
    addCompetition s ⟨name, date, loc, desc, st1⟩ =
      addCompetition s ⟨name, date, loc, desc, st2⟩ := by
  have hb : (s.competitions.any (fun x => x.name == name)) = false :=
    (competition_any_eq_false s.competitions name).mpr hnew
  exact ⟨by simp [addCompetition, hb], by simp [addCompetition]⟩

/-- Witness for C4 on the empty store, with a spurious status supplied. -/
theorem add_competition_status_forced_witness :
    addCompetition emptyStore ⟨"N", "d", "l", "de", some "Completed"⟩ =
      (ok "Competition added successfully.",
       { emptyStore with competitions :=
          emptyStore.competitions ++ [⟨"N", "d", "l", "de", "Upcoming"⟩] }) ∧
    addCompetition emptyStore ⟨"N", "d", "l", "de", some "Completed"⟩ =
      addCompetition emptyStore ⟨"N", "d", "l", "de", none⟩ :=
  add_competition_status_forced emptyStore "N" "d" "l" "de"
    (some "Completed") none (by decide)

/-- C6: the three remove endpoints return `success:true` even when no row
carries the given key, and in that case the store is unchanged. -/
theorem remove_absent_key_noop (s : Store) (p name cid : String) :
    ((∀ u ∈ s.users, u.password ≠ p) →
      removeUser s p = (ok "User removed successfully.", s)) ∧
    ((∀ c ∈ s.competitions, c.name ≠ name) →
      removeCompetition s name = (ok "Competition removed successfully.", s)) ∧
    ((∀ c ∈ s.competitors, c.id ≠ cid) →
      removeCompetitor s cid = (ok "Competitor removed successfully.", s)) := by
  refine ⟨fun h => ?_, fun h => ?_, fun h => ?_⟩
  · have : s.users.filter (fun u => u.password != p) = s.users :=
      List.filter_eq_self.mpr (fun u hu => by simpa using h u hu)
    simp [removeUser, this]
  · have : s.competitions.filter (fun c => c.name != name) = s.competitions :=
      List.filter_eq_self.mpr (fun c hc => by simpa using h c hc)
    simp [removeCompetition, this]
  · have : s.competitors.filter (fun c => c.id != cid) = s.competitors :=
      List.filter_eq_self.mpr (fun c hc => by simpa using h c hc)
    simp [removeCompetitor, this]

/-- Witness for C6 on the empty store. -/
theorem remove_absent_key_noop_witness :
    removeUser emptyStore "p" = (ok "User removed successfully.", emptyStore) ∧
    removeCompetition emptyStore "N" = (ok "Competition removed successfully.", emptyStore) ∧
    removeCompetitor emptyStore "I" = (ok "Competitor removed successfully.", emptyStore) := by
  have h := remove_absent_key_noop emptyStore "p" "N" "I"
  exact ⟨h.1 (by decide), h.2.1 (by decide), h.2.2 (by decide)⟩

/-- C9: deleting a competition or a competitor never touches the
`competition_competitors` association table, so rows referencing the
deleted key stay behind (dangling). -/
theorem remove_preserves_association_table (s : Store) (name cid : String) :
    (removeCompetition s name).2.competition_competitors = s.competition_competitors ∧
    (removeCompetitor s cid).2.competition_competitors = s.competition_competitors :=
  ⟨rfl, rfl⟩

/-- C7: when any of the three seed documents is absent, `init_db` loads
nothing from files and inserts exactly the fixed default dataset: one
admin user, three competitions, three competitors, four association rows. -/
theorem missing_seed_file_loads_defaults (fs : SeedFiles)
    (h : fs.users = none ∨ fs.competitions = none ∨ fs.competitors = none) :
    initDb fs = loadDefaultData emptyStore ∧
    (initDb fs).users.length = 1 ∧
    (initDb fs).competitions.length = 3 ∧
    (initDb fs).competitors.length = 3 ∧
    (initDb fs).competition_competitors.length = 4 := by
  obtain ⟨u, cs, crs⟩ := fs
  have hnone : loadInitialData ⟨u, cs, crs⟩ = none := by
    cases u <;> cases cs <;> cases crs <;>
      first
      | rfl
      | (rcases h with h | h | h <;> simp_all)
  have hdb : initDb ⟨u, cs, crs⟩ = loadDefaultData emptyStore := by
    simp [initDb, hnone]
  refine ⟨hdb, ?_, ?_, ?_, ?_⟩ <;> rw [hdb] <;> rfl

/-- Witness for C7: only `users.json` is absent. -/
theorem missing_seed_file_loads_defaults_witness :
    initDb ⟨none, some [], some []⟩ = loadDefaultData emptyStore ∧
    (initDb ⟨none, some [], some []⟩).users.length = 1 ∧
    (initDb ⟨none, some [], some []⟩).competitions.length = 3 ∧
    (initDb ⟨none, some [], some []⟩).competitors.length = 3 ∧
    (initDb ⟨none, some [], some []⟩).competition_competitors.length = 4 :=
  missing_seed_file_loads_defaults ⟨none, some [], some []⟩ (Or.inl rfl)

/-- C8: with no seed files, the users table after startup is exactly the
single row (password "admin", role "admin"), and `GET /api/users` returns
exactly that pair. -/
theorem default_seed_users_admin_only :
    (initDb ⟨none, none, none⟩).users = [⟨"admin", "admin"⟩] ∧
    getUsers (initDb ⟨none, none, none⟩) = [("admin", "admin")] := by
  constructor <;> rfl

/-- C10 (amended): `GET /api/competitions/{name}/competitors` always
answers HTTP 200 with the join of the association table against the
competitors table; a name with no association rows — in particular a
non-existent competition with no dangling references — yields the empty
list; membership in the listing is exactly the join condition (existence
of the competition row itself is never consulted). -/
theorem competition_competitors_listing_contract (s : Store) (name : String) :
    getCompetitionCompetitorsHandler s name = (200, getCompetitionCompetitors s name) ∧
    ((∀ cc ∈ s.competition_competitors, cc.competition_name ≠ name) →
      getCompetitionCompetitorsHandler s name = (200, [])) ∧
    (∀ nm natl, (nm, natl) ∈ getCompetitionCompetitors s name ↔
      ∃ c ∈ s.competitors, c.name = nm ∧ c.nationality = natl ∧
        (⟨name, c.id⟩ : AssocRow) ∈ s.competition_competitors) := by
  refine ⟨rfl, fun h => ?_, fun nm natl => ?_⟩
  · have : s.competition_competitors.filter (fun cc => cc.competition_name == name) = [] := by
      rw [List.filter_eq_nil_iff]
      intro cc hcc
      simpa using h cc hcc
    simp [getCompetitionCompetitorsHandler, getCompetitionCompetitors, this]
  · simp only [getCompetitionCompetitors, List.mem_flatMap, List.mem_filter,
      List.mem_map, beq_iff_eq]
    constructor
    · rintro ⟨⟨a, b⟩, ⟨hmem, h1⟩, c, ⟨hc, h2⟩, h3⟩
      simp only at h1 h2
      subst h1
      obtain ⟨hnm, hnatl⟩ := Prod.mk.injEq .. ▸ h3
      exact ⟨c, hc, hnm, hnatl, h2 ▸ hmem⟩
    · rintro ⟨c, hc, hnm, hnatl, hmem⟩
      exact ⟨⟨name, c.id⟩, ⟨hmem, rfl⟩, c, ⟨hc, rfl⟩, by rw [hnm, hnatl]⟩

/-- Witness for C10 on a store where "Winter" has one association row and
"Gone" has none. -/
theorem competition_competitors_listing_contract_witness :
    getCompetitionCompetitorsHandler
      ⟨[], [], [⟨"COMP-001", "Alex Smith", "American", "Active"⟩],
        [⟨"Winter", "COMP-001"⟩]⟩ "Gone" = (200, []) ∧
    ("Alex Smith", "American") ∈ getCompetitionCompetitors
      ⟨[], [], [⟨"COMP-001", "Alex Smith", "American", "Active"⟩],
        [⟨"Winter", "COMP-001"⟩]⟩ "Winter" := by
  have h1 := competition_competitors_listing_contract
    ⟨[], [], [⟨"COMP-001", "Alex Smith", "American", "Active"⟩], [⟨"Winter", "COMP-001"⟩]⟩ "Gone"
  have h2 := competition_competitors_listing_contract
    ⟨[], [], [⟨"COMP-001", "Alex Smith", "American", "Active"⟩], [⟨"Winter", "COMP-001"⟩]⟩ "Winter"
  exact ⟨h1.2.1 (by decide), (h2.2.2 "Alex Smith" "American").mpr (by decide)⟩

/-- C10 counterexample: the competition "X" does not exist, yet a dangling
association row makes the listing non-empty, contradicting the claim that
a non-existent competition always yields an empty list. -/
theorem competition_competitors_listing_counterexample :
    (⟨[], [], [⟨"COMP-001", "Alex Smith", "American", "Active"⟩],
      [⟨"X", "COMP-001"⟩]⟩ : Store).competitions = [] ∧
    getCompetitionCompetitors
      ⟨[], [], [⟨"COMP-001", "Alex Smith", "American", "Active"⟩],
        [⟨"X", "COMP-001"⟩]⟩ "X" = [("Alex Smith", "American")] := by
  constructor <;> rfl

/-- C3 (amended): `POST /api/competitions/add_competitor` fails when the
request's competition name or competitor id is absent or empty, and when
the association pair already exists; otherwise it inserts the association
row and reports success — whether or not the referenced competition and
competitor rows exist (referential integrity is not checked). -/
theorem add_competitor_association_contract (s : Store)
    (competition_name competitor_id : Option String) :
    ((isBlank competition_name || isBlank competitor_id) = true →
      addCompetitorToCompetition s competition_name competitor_id =
        (fail "Competition name and competitor ID are required.", s)) ∧
    (∀ n i, competition_name = some n → competitor_id = some i → n ≠ "" → i ≠ "" →
      ((⟨n, i⟩ : AssocRow) ∈ s.competition_competitors →
        addCompetitorToCompetition s competition_name competitor_id =
          (fail "Competitor is already assigned to this competition.", s)) ∧
      ((⟨n, i⟩ : AssocRow) ∉ s.competition_competitors →
        addCompetitorToCompetition s competition_name competitor_id =
          (ok "Competitor assigned successfully.",
           { s with competition_competitors := s.competition_competitors ++ [⟨n, i⟩] }))) := by
  refine ⟨fun h => ?_, fun n i hn hi hne hie => ?_⟩
  · simp [addCompetitorToCompetition, h]
  · subst hn; subst hi
    have hblank : (isBlank (some n) || isBlank (some i)) = false := by
      simp [isBlank, hne, hie]
    refine ⟨fun hmem => ?_, fun hmem => ?_⟩
    · have hdup : (s.competition_competitors.any
          (fun cc => cc.competition_name == n && cc.competitor_id == i)) = true :=
        (assoc_any_iff_mem s.competition_competitors n i).mpr hmem
      simp [addCompetitorToCompetition, hblank, hdup, isBlank, hne, hie]
    · have hdup : (s.competition_competitors.any
          (fun cc => cc.competition_name == n && cc.competitor_id == i)) = false := by
        rw [Bool.eq_false_iff]
        intro hc
        exact hmem ((assoc_any_iff_mem s.competition_competitors n i).mp hc)
      simp [addCompetitorToCompetition, hblank, hdup, isBlank, hne, hie]

/-- Witness for C3: blank-field rejection, duplicate rejection, and a
fresh insert, each on a concrete store. -/
theorem add_competitor_association_contract_witness :
    addCompetitorToCompetition ⟨[], [], [], [⟨"A", "B"⟩]⟩ none (some "B") =
      (fail "Competition name and competitor ID are required.", ⟨[], [], [], [⟨"A", "B"⟩]⟩) ∧
    addCompetitorToCompetition ⟨[], [], [], [⟨"A", "B"⟩]⟩ (some "A") (some "B") =
      (fail "Competitor is already assigned to this competition.", ⟨[], [], [], [⟨"A", "B"⟩]⟩) ∧
    addCompetitorToCompetition ⟨[], [], [], [⟨"A", "B"⟩]⟩ (some "A") (some "C") =
      (ok "Competitor assigned successfully.", ⟨[], [], [], [⟨"A", "B"⟩, ⟨"A", "C"⟩]⟩) := by
  have h := add_competitor_association_contract ⟨[], [], [], [⟨"A", "B"⟩]⟩
  exact ⟨(h none (some "B")).1 (by decide),
    ((h (some "A") (some "B")).2 "A" "B" rfl rfl (by decide) (by decide)).1 (by decide),
    ((h (some "A") (some "C")).2 "A" "C" rfl rfl (by decide) (by decide)).2 (by decide)⟩

/-- C3 counterexample: on the empty store both referenced rows are absent,
yet the association insert succeeds with `success:true`, contradicting the
claim that missing referenced rows are rejected. -/
theorem add_competitor_association_counterexample :
    emptyStore.competitions = [] ∧ emptyStore.competitors = [] ∧
    addCompetitorToCompetition emptyStore (some "X") (some "Y") =
      (ok "Competitor assigned successfully.", ⟨[], [], [], [⟨"X", "Y"⟩]⟩) := by
  refine ⟨rfl, rfl, ?_⟩
  rfl

/-- C5: `GET /api/competitors/{id}/profile` answers 404 with
`success:false` when no competitor row carries the id, and otherwise
returns that row together with the `(name, date, location)` triples of
exactly the competitions linked to the id through the association table. -/
theorem competitor_profile_contract (s : Store) (cid : String) :
    ((∀ c ∈ s.competitors, c.id ≠ cid) →
      getCompetitorProfile s cid = .notFound ∧
      profileStatus (getCompetitorProfile s cid) = 404) ∧
    (∀ c ∈ s.competitors, c.id = cid → (s.competitors.map Competitor.id).Nodup →
      ∃ comps, getCompetitorProfile s cid = .found c comps ∧
        profileStatus (getCompetitorProfile s cid) = 200 ∧
        ∀ nm dt lc, (nm, dt, lc) ∈ comps ↔
          ∃ comp ∈ s.competitions, comp.name = nm ∧ comp.date = dt ∧ comp.location = lc ∧
            ∃ cc ∈ s.competition_competitors,
              cc.competitor_id = cid ∧ cc.competition_name = comp.name) := by
  constructor
  · intro h
    have hfind : s.competitors.find? (fun c => c.id == cid) = none := by
      rw [List.find?_eq_none]
      intro x hx
      simpa using h x hx
    constructor <;> simp [getCompetitorProfile, hfind, profileStatus]
  · intro c hc hid hnodup
    have hfind : s.competitors.find? (fun x => x.id == cid) = some c := by
      cases hfound : s.competitors.find? (fun x => x.id == cid) with
      | none =>
        rw [List.find?_eq_none] at hfound
        exact absurd (show (c.id == cid) = true by simpa using hid) (hfound c hc)
      | some c2 =>
        have hmem2 := List.mem_of_find?_eq_some hfound
        have hid2 : c2.id = cid := by simpa using List.find?_some hfound
        rw [List.inj_on_of_nodup_map hnodup hmem2 hc (by rw [hid2, hid])]
    refine ⟨(s.competition_competitors.filter (fun cc => cc.competitor_id == cid)).flatMap
        (fun cc => (s.competitions.filter (fun comp => comp.name == cc.competition_name)).map
          (fun comp => (comp.name, comp.date, comp.location))),
      by simp [getCompetitorProfile, hfind],
      by simp [getCompetitorProfile, hfind, profileStatus], fun nm dt lc => ?_⟩
    simp only [List.mem_flatMap, List.mem_filter, List.mem_map, beq_iff_eq]
    constructor
    · rintro ⟨cc, ⟨hcc, hpid⟩, comp, ⟨hcomp, hname⟩, heq⟩
      simp only [Prod.mk.injEq] at heq
      obtain ⟨h1, h2, h3⟩ := heq
      exact ⟨comp, hcomp, h1, h2, h3, cc, hcc, hpid, hname.symm⟩
    · rintro ⟨comp, hcomp, hnm, hdt, hlc, cc, hcc, hpid, hcn⟩
      exact ⟨cc, ⟨hcc, hpid⟩, comp, ⟨hcomp, hcn.symm⟩, by rw [hnm, hdt, hlc]⟩

/-- Witness for C5: a 404 on an unknown id and a found profile listing
the one linked competition. -/
theorem competitor_profile_contract_witness :
    getCompetitorProfile
      ⟨[], [⟨"Winter", "d", "l", "de", "Completed"⟩],
        [⟨"COMP-001", "Alex Smith", "American", "Active"⟩],
        [⟨"Winter", "COMP-001"⟩]⟩ "NOPE" = .notFound ∧
    (∃ comps, getCompetitorProfile
        ⟨[], [⟨"Winter", "d", "l", "de", "Completed"⟩],
          [⟨"COMP-001", "Alex Smith", "American", "Active"⟩],
          [⟨"Winter", "COMP-001"⟩]⟩ "COMP-001" =
        .found ⟨"COMP-001", "Alex Smith", "American", "Active"⟩ comps ∧
      ("Winter", "d", "l") ∈ comps) := by
  have h1 := competitor_profile_contract
    ⟨[], [⟨"Winter", "d", "l", "de", "Completed"⟩],
      [⟨"COMP-001", "Alex Smith", "American", "Active"⟩], [⟨"Winter", "COMP-001"⟩]⟩ "NOPE"
  have h2 := competitor_profile_contract
    ⟨[], [⟨"Winter", "d", "l", "de", "Completed"⟩],
      [⟨"COMP-001", "Alex Smith", "American", "Active"⟩], [⟨"Winter", "COMP-001"⟩]⟩ "COMP-001"
  obtain ⟨comps, hfound, _, hiff⟩ :=
    h2.2 ⟨"COMP-001", "Alex Smith", "American", "Active"⟩ (by decide) rfl (by decide)
  exact ⟨(h1.1 (by decide)).1, comps, hfound,
    (hiff "Winter" "d" "l").mpr (by decide)⟩

/-- C1 (amended): editing a competitor whose `original_id` is present
updates the row and rewrites every referencing association row to the new
id — provided the new id collides with no existing competitor row and with
no existing association row (on collision the key violation is caught,
`success:false` is returned and the store is unchanged).  Afterwards every
competition that contained the old id lists the new data, and no row
carries the old id anywhere. -/
theorem edit_competitor_propagates (s : Store)
    (new_name new_id new_nationality new_status original_id : String)
    (hpresent : ∃ c ∈ s.competitors, c.id = original_id)
    (hfresh : ∀ c ∈ s.competitors, c.id ≠ new_id)
    (hafresh : ∀ cc ∈ s.competition_competitors, cc.competitor_id ≠ new_id) :
    ∃ s', editCompetitor s new_name new_id new_nationality new_status original_id =
        (ok "Competitor updated successfully.", s') ∧
      s'.competitors = s.competitors.map (fun c =>
        if c.id = original_id then ⟨new_id, new_name, new_nationality, new_status⟩ else c) ∧
      s'.competition_competitors = s.competition_competitors.map (fun cc =>
        if cc.competitor_id = original_id then ⟨cc.competition_name, new_id⟩ else cc) ∧
      s'.users = s.users ∧ s'.competitions = s.competitions ∧
      (∀ cname, (⟨cname, original_id⟩ : AssocRow) ∈ s.competition_competitors →
        (new_name, new_nationality) ∈ getCompetitionCompetitors s' cname) ∧
      (∀ cc ∈ s'.competition_competitors, cc.competitor_id ≠ original_id) ∧
      (∀ c ∈ s'.competitors, c.id ≠ original_id) := by
  obtain ⟨c0, hc0, hc0id⟩ := hpresent
  have hne : new_id ≠ original_id := fun he => hfresh c0 hc0 (hc0id.trans he.symm)
  have hconf1 : competitorUpdateConflict s new_id original_id = false := by
    have h2 : (s.competitors.any (fun c => c.id == new_id)) = false := by
      rw [List.any_eq_false]
      intro c hc
      simpa using hfresh c hc
    simp [competitorUpdateConflict, h2]
  have hconf2 : assocUpdateConflict s new_id original_id = false := by
    have h2 : ∀ cn : String, (s.competition_competitors.any
        (fun cc2 => cc2.competition_name == cn && cc2.competitor_id == new_id)) = false := by
      intro cn
      rw [List.any_eq_false]
      intro cc hcc
      simp [hafresh cc hcc]
    have houter : (s.competition_competitors.any (fun cc =>
        cc.competitor_id == original_id && s.competition_competitors.any
          (fun cc2 => cc2.competition_name == cc.competition_name &&
            cc2.competitor_id == new_id))) = false := by
      rw [List.any_eq_false]
      intro cc hcc
      simp [h2 cc.competition_name]
    simp [assocUpdateConflict, houter]
  have heq : editCompetitor s new_name new_id new_nationality new_status original_id =
      (ok "Competitor updated successfully.",
       { s with
          competitors := s.competitors.map (fun c =>
            if c.id = original_id then ⟨new_id, new_name, new_nationality, new_status⟩ else c),
          competition_competitors := s.competition_competitors.map (fun cc =>
            if cc.competitor_id = original_id then ⟨cc.competition_name, new_id⟩ else cc) }) := by
    simp [editCompetitor, hconf1, hconf2]
  refine ⟨_, heq, rfl, rfl, rfl, rfl, fun cname hmem => ?_, fun cc hcc => ?_, fun c hc => ?_⟩
  · have hrow : (⟨cname, new_id⟩ : AssocRow) ∈ s.competition_competitors.map (fun cc =>
        if cc.competitor_id = original_id then ⟨cc.competition_name, new_id⟩ else cc) := by
      have := List.mem_map_of_mem (fun cc : AssocRow =>
        if cc.competitor_id = original_id then (⟨cc.competition_name, new_id⟩ : AssocRow)
        else cc) hmem
      simpa using this
    have hcomp : (⟨new_id, new_name, new_nationality, new_status⟩ : Competitor) ∈
        s.competitors.map (fun c => if c.id = original_id then
          ⟨new_id, new_name, new_nationality, new_status⟩ else c) := by
      have := List.mem_map_of_mem (fun c : Competitor => if c.id = original_id then
        (⟨new_id, new_name, new_nationality, new_status⟩ : Competitor) else c) hc0
      simpa [hc0id] using this
    have hinner : (new_name, new_nationality) ∈
        ((s.competitors.map (fun c => if c.id = original_id then
            (⟨new_id, new_name, new_nationality, new_status⟩ : Competitor) else c)).filter
          (fun c => c.id == new_id)).map (fun c => (c.name, c.nationality)) :=
      List.mem_map_of_mem _ (List.mem_filter.mpr ⟨hcomp, by simp⟩)
    simp only [getCompetitionCompetitors]
    exact List.mem_flatMap.mpr ⟨⟨cname, new_id⟩,
      List.mem_filter.mpr ⟨hrow, by simp⟩, hinner⟩
  · simp only [List.mem_map] at hcc
    obtain ⟨cc0, _, rfl⟩ := hcc
    by_cases h : cc0.competitor_id = original_id
    · rw [if_pos h]; exact hne
    · rw [if_neg h]; exact h
  · simp only [List.mem_map] at hc
    obtain ⟨x0, _, rfl⟩ := hc
    by_cases h : x0.id = original_id
    · rw [if_pos h]; exact hne
    · rw [if_neg h]; exact h

/-- Witness for C1 on a one-competitor store: COMP-001 is renamed to
COMP-099 and the Winter Grand Prix association row follows. -/
theorem edit_competitor_propagates_witness :
    ∃ s', editCompetitor
        ⟨[], [], [⟨"COMP-001", "Alex Smith", "American", "Active"⟩],
          [⟨"Winter Grand Prix", "COMP-001"⟩]⟩
        "Alex Smith" "COMP-099" "American" "Active" "COMP-001" =
        (ok "Competitor updated successfully.", s') ∧
      s'.competitors = [⟨"COMP-001", "Alex Smith", "American", "Active"⟩].map (fun c =>
        if c.id = "COMP-001" then ⟨"COMP-099", "Alex Smith", "American", "Active"⟩ else c) ∧
      s'.competition_competitors = [(⟨"Winter Grand Prix", "COMP-001"⟩ : AssocRow)].map (fun cc =>
        if cc.competitor_id = "COMP-001" then ⟨cc.competition_name, "COMP-099"⟩ else cc) ∧
      s'.users = [] ∧ s'.competitions = [] ∧
      (∀ cname, (⟨cname, "COMP-001"⟩ : AssocRow) ∈
          [(⟨"Winter Grand Prix", "COMP-001"⟩ : AssocRow)] →
        ("Alex Smith", "American") ∈ getCompetitionCompetitors s' cname) ∧
      (∀ cc ∈ s'.competition_competitors, cc.competitor_id ≠ "COMP-001") ∧
      (∀ c ∈ s'.competitors, c.id ≠ "COMP-001") :=
  edit_competitor_propagates
    ⟨[], [], [⟨"COMP-001", "Alex Smith", "American", "Active"⟩],
      [⟨"Winter Grand Prix", "COMP-001"⟩]⟩
    "Alex Smith" "COMP-099" "American" "Active" "COMP-001"
    (by decide) (by decide) (by decide)

/-- C1 counterexample: "COMP-001" is present, yet editing it to the id of
the coexisting competitor "COMP-099" violates the primary key, so the
handler reports `success:false`, the store is unchanged, and the Winter
Grand Prix listing still shows the old competitor's data. -/
theorem edit_competitor_propagates_counterexample :
    (∃ c ∈ (⟨[], [], [⟨"COMP-001", "Alex Smith", "American", "Active"⟩,
        ⟨"COMP-099", "Bob Jones", "British", "Active"⟩],
        [⟨"Winter Grand Prix", "COMP-001"⟩]⟩ : Store).competitors, c.id = "COMP-001") ∧
    editCompetitor
      ⟨[], [], [⟨"COMP-001", "Alex Smith", "American", "Active"⟩,
        ⟨"COMP-099", "Bob Jones", "British", "Active"⟩],
        [⟨"Winter Grand Prix", "COMP-001"⟩]⟩
      "Alex Smith" "COMP-099" "American" "Active" "COMP-001" =
      (fail "UNIQUE constraint failed: competitors.id",
       ⟨[], [], [⟨"COMP-001", "Alex Smith", "American", "Active"⟩,
        ⟨"COMP-099", "Bob Jones", "British", "Active"⟩],
        [⟨"Winter Grand Prix", "COMP-001"⟩]⟩) ∧
    getCompetitionCompetitors
      (editCompetitor
        ⟨[], [], [⟨"COMP-001", "Alex Smith", "American", "Active"⟩,
          ⟨"COMP-099", "Bob Jones", "British", "Active"⟩],
          [⟨"Winter Grand Prix", "COMP-001"⟩]⟩
        "Alex Smith" "COMP-099" "American" "Active" "COMP-001").2
      "Winter Grand Prix" = [("Alex Smith", "American")] := by
  refine ⟨by decide, by rfl, by rfl⟩

end NovaTeam
